import Mathlib

/-!
# Verification of the VS Code diagnostics hook (`hooks/diagnostics_parser.py`)

This file gives a shallow embedding of the diagnostics-report generator:

* the typed data model of a diagnostics snapshot (`Diagnostic`, `FileData`),
  matching the documented JSON shape (an array of file objects, each with a
  `file` path and a `diagnostics` array);
* the statistics aggregator `analyze_statistics` (a `Counter` over severity
  labels, modelled as an insertion-ordered association list, exactly as
  Python's `collections.Counter` populates a dict);
* the markdown renderer `generate_reason_markdown`;
* the retrying reader `load_diagnostics` (sleeps modelled as a counter,
  the per-attempt filesystem outcome as an oracle `Nat → Attempt`); it
  returns an `Except` because one real failure mode is uncaught: content
  that is not valid UTF-8 makes `f.read()` raise UnicodeDecodeError, a
  ValueError outside the caught `(json.JSONDecodeError, OSError,
  PermissionError)` tuple, so it escapes the loop;
* the event dispatch of `main` (`dispatch`);
* a second, dynamically-typed embedding over JSON values (`JValue`) in an
  `Except` monad, which models the Python-level exceptions
  (AttributeError, TypeError, KeyError, UnicodeDecodeError) that arise
  when the snapshot file holds undecodable bytes or JSON of an unexpected
  shape, together with `main`'s top-level `try/except` wrapper
  (`run_hook_dyn`).

Machine integers do not occur (all counts are small naturals); all
definitions are executable.
-/

/-- A source position, as found in a diagnostic's `start`/`end` objects.
Both fields are optional because the renderer reads them with
`start.get("line", 0)` / `.get("character", 0)`. -/
structure Position where
  line : Option Int
  character : Option Int
  deriving Repr, DecidableEq

/-- One diagnostic entry.  Every field the Python code reads with `.get` is
optional; `severity` is an integer code (0=Error, 1=Warning, 2=Information,
3=Hint), possibly absent. -/
structure Diagnostic where
  severity : Option Int
  message : Option String
  source : Option String
  code : Option String
  start : Option Position
  end_ : Option Position
  deriving Repr, DecidableEq

/-- One element of the snapshot array: a file path plus its diagnostics,
in snapshot order. -/
structure FileData where
  file : String
  diagnostics : List Diagnostic
  deriving Repr, DecidableEq

/-- `SEVERITY_MAP = {0: "Error", 1: "Warning", 2: "Information", 3: "Hint"}`
as a lookup function (`dict.get` without the default). -/
def SEVERITY_MAP (code : Int) : Option String :=
  if code = 0 then some "Error"
  else if code = 1 then some "Warning"
  else if code = 2 then some "Information"
  else if code = 3 then some "Hint"
  else none

/-- `SEVERITY_ICONS = {"Error": "❌", "Warning": "⚠️", "Information": "ℹ️",
"Hint": "💡"}` as a lookup function. -/
def SEVERITY_ICONS (name : String) : Option String :=
  if name = "Error" then some "❌"
  else if name = "Warning" then some "⚠️"
  else if name = "Information" then some "ℹ️"
  else if name = "Hint" then some "💡"
  else none

/-- `SEVERITY_MAP.get(diag.get("severity", 0), "Unknown")`: the severity
label of an entry, a missing severity field defaulting to code 0. -/
def severityName (severity : Option Int) : String :=
  (SEVERITY_MAP (severity.getD 0)).getD "Unknown"

/-- A `collections.Counter` over strings, modelled as an association list in
key-insertion order (exactly the key order a Python dict acquires).  Keys are
only ever created by an increment, so every stored count is positive. -/
def Counter := List (String × Nat)

/-- `counter[k] += 1`: bump an existing key in place, or append a new key
with count 1. -/
def counterAdd : List (String × Nat) → String → List (String × Nat)
  | [], k => [(k, 1)]
  | (k', v) :: rest, k =>
    if k' = k then (k', v + 1) :: rest else (k', v) :: counterAdd rest k

/-- `counter.get(k, 0)` / `dict.get(k, 0)`. -/
def counterGet : List (String × Nat) → String → Nat
  | [], _ => 0
  | (k', v) :: rest, k => if k' = k then v else counterGet rest k

/-- The key set of the counter/dict, in insertion order. -/
def counterKeys (c : List (String × Nat)) : List String :=
  c.map Prod.fst

/-- The `Statistics` dict returned by `analyze_statistics`. -/
structure Statistics where
  total_files : Nat
  total_diagnostics : Nat
  by_severity : List (String × Nat)
  deriving Repr, DecidableEq

/-- `DiagnosticsChecker.analyze_statistics`: one pass over the snapshot,
counting files, diagnostics, and severity labels. -/
def analyze_statistics (data : List FileData) : Statistics :=
  data.foldl
    (fun acc file_data =>
      { total_files := acc.total_files + 1
        total_diagnostics := acc.total_diagnostics + file_data.diagnostics.length
        by_severity :=
          file_data.diagnostics.foldl
            (fun c diag => counterAdd c (severityName diag.severity))
            acc.by_severity })
    ⟨0, 0, []⟩

/-- The severity label of every entry of the snapshot, in order: the exact
sequence of keys `analyze_statistics` feeds to its `Counter`. -/
def severityLabels (data : List FileData) : List String :=
  data.flatMap (fun fd => fd.diagnostics.map (fun d => severityName d.severity))

-- ### Counter lemmas

theorem counterGet_counterAdd (c : List (String × Nat)) (a k : String) :
    counterGet (counterAdd c a) k = counterGet c k + (if k = a then 1 else 0) := by
  induction c with
  | nil =>
    simp only [counterAdd, counterGet]
    by_cases h : a = k
    · subst h; simp
    · rw [if_neg h, if_neg (fun hh => h hh.symm)]
  | cons p rest ih =>
    obtain ⟨k', v⟩ := p
    simp only [counterAdd]
    by_cases h1 : k' = a
    · subst h1
      simp only [if_pos rfl, counterGet]
      by_cases h2 : k' = k
      · rw [if_pos h2, if_pos h2, if_pos h2.symm]
      · rw [if_neg h2, if_neg h2, if_neg (fun hh => h2 hh.symm)]
        omega
    · rw [if_neg h1]
      simp only [counterGet]
      by_cases h2 : k' = k
      · subst h2
        rw [if_pos rfl, if_pos rfl, if_neg (fun hh => h1 hh)]
        omega
      · rw [if_neg h2, if_neg h2, ih]

theorem counterGet_foldl (ls : List String) (c : List (String × Nat)) (k : String) :
    counterGet (ls.foldl counterAdd c) k = counterGet c k + ls.count k := by
  induction ls generalizing c with
  | nil => simp
  | cons a rest ih =>
    rw [List.foldl_cons, ih, counterGet_counterAdd, List.count_cons]
    by_cases h : k = a
    · subst h
      simp
      omega
    · simp [h, show ¬a = k from fun hh => h hh.symm]

theorem mem_counterKeys_counterAdd (c : List (String × Nat)) (a k : String) :
    k ∈ counterKeys (counterAdd c a) ↔ k ∈ counterKeys c ∨ k = a := by
  induction c with
  | nil => simp [counterAdd, counterKeys]
  | cons p rest ih =>
    obtain ⟨k', v⟩ := p
    by_cases h1 : k' = a <;> simp [counterAdd, counterKeys, h1] at ih ⊢
    · subst h1; tauto
    · rw [ih]; tauto

theorem mem_counterKeys_foldl (ls : List String) (c : List (String × Nat)) (k : String) :
    k ∈ counterKeys (ls.foldl counterAdd c) ↔ k ∈ counterKeys c ∨ k ∈ ls := by
  induction ls generalizing c with
  | nil => simp
  | cons a rest ih =>
    simp only [List.foldl_cons, ih, mem_counterKeys_counterAdd, List.mem_cons]
    tauto

-- ### Characterisation of `analyze_statistics`

theorem analyze_statistics_foldl (data : List FileData)
    (a b : Nat) (c : List (String × Nat)) :
    data.foldl
      (fun acc file_data =>
        { total_files := acc.total_files + 1
          total_diagnostics := acc.total_diagnostics + file_data.diagnostics.length
          by_severity :=
            file_data.diagnostics.foldl
              (fun c diag => counterAdd c (severityName diag.severity))
              acc.by_severity } : Statistics → FileData → Statistics)
      ⟨a, b, c⟩ =
      ⟨a + data.length, b + (data.map (fun fd => fd.diagnostics.length)).sum,
       (severityLabels data).foldl counterAdd c⟩ := by
  induction data generalizing a b c with
  | nil => simp [severityLabels]
  | cons fd rest ih =>
    simp only [List.foldl_cons]
    rw [ih]
    have hsev :
        (fd.diagnostics.foldl (fun c diag => counterAdd c (severityName diag.severity)) c) =
          (fd.diagnostics.map (fun d => severityName d.severity)).foldl counterAdd c := by
      rw [List.foldl_map]
    simp only [severityLabels, List.flatMap_cons, List.foldl_append, List.map_cons,
      List.sum_cons, List.length_cons, hsev, Statistics.mk.injEq]
    exact ⟨by omega, by omega, trivial⟩

theorem analyze_statistics_eq (data : List FileData) :
    analyze_statistics data =
      ⟨data.length, (data.map (fun fd => fd.diagnostics.length)).sum,
       (severityLabels data).foldl counterAdd []⟩ := by
  simpa using analyze_statistics_foldl data 0 0 []

theorem by_severity_get (data : List FileData) (k : String) :
    counterGet (analyze_statistics data).by_severity k = (severityLabels data).count k := by
  rw [analyze_statistics_eq]
  have h := counterGet_foldl (severityLabels data) [] k
  simpa [counterGet] using h

theorem by_severity_mem_keys (data : List FileData) (k : String) :
    k ∈ counterKeys (analyze_statistics data).by_severity ↔ k ∈ severityLabels data := by
  rw [analyze_statistics_eq]
  have h := mem_counterKeys_foldl (severityLabels data) [] k
  simpa [counterKeys] using h

-- ## The report renderer (typed layer)

/-- `"sep".join(xs)`: Python-style string join. -/
def pyJoin (sep : String) : List String → String
  | [] => ""
  | [x] => x
  | x :: y :: xs => x ++ sep ++ pyJoin sep (y :: xs)

/-- `Path(p).name`: the final path component (paths use forward slashes,
as the hook normalises Windows paths before parsing). -/
def pathName (p : String) : String :=
  ((p.splitOn "/").filter (fun comp => comp ≠ "")).getLastD ""

/-- `sum(1 for d in diagnostics if d.get("severity") == 0)`: the per-file
Error tally.  Note there is no default: a missing severity compares unequal
to `0`. -/
def file_errors (diagnostics : List Diagnostic) : Nat :=
  (diagnostics.filter (fun d => d.severity = some 0)).length

/-- `sum(1 for d in diagnostics if d.get("severity") == 1)`. -/
def file_warnings (diagnostics : List Diagnostic) : Nat :=
  (diagnostics.filter (fun d => d.severity = some 1)).length

/-- `sum(1 for d in diagnostics if d.get("severity") == 2)`. -/
def file_infos (diagnostics : List Diagnostic) : Nat :=
  (diagnostics.filter (fun d => d.severity = some 2)).length

/-- `sum(1 for d in diagnostics if d.get("severity") == 3)`. -/
def file_hints (diagnostics : List Diagnostic) : Nat :=
  (diagnostics.filter (fun d => d.severity = some 3)).length

/-- The per-file summary text: counts of each present severity, joined by
`", "`, omitting severities with zero count. -/
def summary_text (diagnostics : List Diagnostic) : String :=
  pyJoin ", "
    ((if file_errors diagnostics ≠ 0 then [toString (file_errors diagnostics) ++ "个error"] else []) ++
     (if file_warnings diagnostics ≠ 0 then [toString (file_warnings diagnostics) ++ "个warning"] else []) ++
     (if file_infos diagnostics ≠ 0 then [toString (file_infos diagnostics) ++ "个information"] else []) ++
     (if file_hints diagnostics ≠ 0 then [toString (file_hints diagnostics) ++ "个hint"] else []))

/-- The detail lines for a single diagnostic, in source order: position and
severity line, message line, optional source, optional code, relativised
file path, and a blank separator.  `relativize` stands for
`self._relativize` (a pure path computation that depends on the project
root, passed here as an oracle). -/
def diagnosticLines (relativize : String → String) (file_path : String)
    (diagnostic : Diagnostic) : List String :=
  let severity_name := severityName diagnostic.severity
  let icon := (SEVERITY_ICONS severity_name).getD "📋"
  let start := diagnostic.start.getD ⟨none, none⟩
  let «end» := diagnostic.end_.getD ⟨none, none⟩
  let line := start.line.getD 0
  let start_char := start.character.getD 0
  let end_char := «end».character.getD 0
  ["**第" ++ toString line ++ "行:" ++ toString start_char ++ "-" ++ toString end_char ++
     "** - " ++ icon ++ " " ++ severity_name,
   "- **消息**: " ++ diagnostic.message.getD "无"] ++
  (match diagnostic.source with
   | some s => if s = "" then [] else ["- **来源**: " ++ s]
   | none => []) ++
  (match diagnostic.code with
   | some c => if c = "" then [] else ["- **错误代码**: " ++ c]
   | none => []) ++
  ["- **文件路径**: `" ++ relativize file_path ++ "`", ""]

/-- The detail lines contributed by one file: nothing when it has no
diagnostics, otherwise a heading with base name and per-file summary, a
blank line, and each diagnostic's lines in snapshot order. -/
def fileDetailLines (relativize : String → String) (file_data : FileData) : List String :=
  if file_data.diagnostics.isEmpty then []
  else
    ("### 📄 " ++ pathName file_data.file ++ " (" ++ summary_text file_data.diagnostics ++ ")") ::
    "" ::
    file_data.diagnostics.flatMap (diagnosticLines relativize file_data.file)

/-- `DiagnosticsChecker.generate_reason_markdown`, given the loaded
snapshot `data` (the settle waits and the file read itself are modelled by
`load_diagnostics` below).  Returns `none` when the loaded data is empty or
contains neither Errors nor Warnings; otherwise the markdown report. -/
def generate_reason_markdown (relativize : String → String)
    (data : List FileData) : Option String :=
  if data.isEmpty then none
  else
    let stats := analyze_statistics data
    let errors := counterGet stats.by_severity "Error"
    let warnings := counterGet stats.by_severity "Warning"
    if errors = 0 ∧ warnings = 0 then none
    else
      let detail_lines := data.flatMap (fileDetailLines relativize)
      let header :=
        ["### 诊断摘要", "",
         "- ❌ Error: " ++ toString errors,
         "- ⚠️ Warning: " ++ toString warnings,
         ""]
      some (pyJoin "\n" (header ++ detail_lines))

-- ## Dispatch (the event branching of `main`)

/-- The fixed priority-emphasis banner prepended on the
`UserPromptSubmit` path. -/
def emphasis : String :=
  "⚠️ 优先级提示\n\n" ++
  "请暂停当前任务与后续输出，先修复以下代码错误/警告，再继续原始任务。\n" ++
  "建议执行顺序：\n" ++
  "1) 逐个修复下列 Error（阻断项）\n" ++
  "2) 处理 Warning（非阻断但建议修复）\n" ++
  "3) 重新构建/分析，确认无 Error 后再回答最初的问题。\n\n" ++
  "---\n\n"

/-- The terminal outputs of one hook invocation: a blocking decision
(`{"decision": "block", "reason": ...}`), an injected-context payload
(`hookSpecificOutput` with `hookEventName` and `additionalContext`), a plain
echo line, or silence. -/
inductive HookOutput where
  | block (reason : String)
  | inject (hookEventName : String) (additionalContext : String)
  | echoLine (line : String)
  | silent
  deriving Repr, DecidableEq

/-- The event dispatch of `main` over the already-loaded snapshot:
`PostToolUse` blocks with the report (if any), `UserPromptSubmit` injects
the banner-prefixed report as additional context (never blocking), any
other event echoes its name. -/
def dispatch (relativize : String → String) (hook_event_name : String)
    (data : List FileData) : HookOutput :=
  if hook_event_name = "PostToolUse" then
    match generate_reason_markdown relativize data with
    | some reason_md => .block reason_md
    | none => .silent
  else if hook_event_name = "UserPromptSubmit" then
    match generate_reason_markdown relativize data with
    | some reason_md => .inject "UserPromptSubmit" (emphasis ++ reason_md)
    | none => .silent
  else .echoLine (hook_event_name ++ "：钩子触发")

-- ### Render lemmas

theorem severityName_info_hint (k : Int) (h : k = 2 ∨ k = 3) :
    severityName (some k) = "Information" ∨ severityName (some k) = "Hint" := by
  rcases h with h | h <;> subst h
  · exact Or.inl (by decide)
  · exact Or.inr (by decide)

theorem error_warning_counts_zero_of_info_hint (data : List FileData)
    (h : ∀ fd ∈ data, ∀ d ∈ fd.diagnostics, d.severity = some 2 ∨ d.severity = some 3) :
    counterGet (analyze_statistics data).by_severity "Error" = 0 ∧
    counterGet (analyze_statistics data).by_severity "Warning" = 0 := by
  rw [by_severity_get, by_severity_get]
  constructor <;>
    · rw [List.count_eq_zero]
      intro hmem
      rw [severityLabels, List.mem_flatMap] at hmem
      obtain ⟨fd, hfd, hmap⟩ := hmem
      rw [List.mem_map] at hmap
      obtain ⟨d, hd, hlab⟩ := hmap
      rcases h fd hfd d hd with h2 | h2 <;> rw [h2] at hlab <;> exact absurd hlab (by decide)

theorem render_header_prefix (relativize : String → String) (data : List FileData)
    (md : String) (h : generate_reason_markdown relativize data = some md) :
    ∃ rest, md =
      "### 诊断摘要" ++ "\n\n" ++ "- ❌ Error: " ++
        toString (counterGet (analyze_statistics data).by_severity "Error") ++
      "\n" ++ "- ⚠️ Warning: " ++
        toString (counterGet (analyze_statistics data).by_severity "Warning") ++
      "\n" ++ rest := by
  simp only [generate_reason_markdown] at h
  split at h
  · exact absurd h (by simp)
  · split at h
    · exact absurd h (by simp)
    · refine ⟨pyJoin "\n" ("" :: data.flatMap (fileDetailLines relativize)), ?_⟩
      rw [Option.some_inj] at h
      rw [← h]
      simp only [List.cons_append, List.nil_append, List.append_nil, pyJoin]
      simp only [← String.append_assoc]
      rfl

theorem generate_none_iff (relativize : String → String) (data : List FileData) :
    generate_reason_markdown relativize data = none ↔
      (data = [] ∨
        (counterGet (analyze_statistics data).by_severity "Error" = 0 ∧
         counterGet (analyze_statistics data).by_severity "Warning" = 0)) := by
  simp only [generate_reason_markdown]
  split
  · next hempty =>
    simp only [List.isEmpty_iff] at hempty
    simp [hempty]
  · next hempty =>
    simp only [List.isEmpty_iff] at hempty
    split
    · next hz => simp [hz, hempty]
    · next hz => simp [hz, hempty]

-- ## Claim theorems for the aggregator and renderer

/-- Sample file with a single Error diagnostic (spec Scenario A). -/
def sampleErrorFile : FileData :=
  { file := "/proj/a.py"
    diagnostics := [{ severity := some 0, message := some "bad syntax", source := none,
                      code := none, start := some ⟨some 3, some 1⟩,
                      end_ := some ⟨some 3, some 5⟩ }] }

/-- Sample file with a single Information diagnostic (spec Scenario B). -/
def sampleInfoFile : FileData :=
  { file := "/proj/b.py"
    diagnostics := [{ severity := some 2, message := some "note", source := none,
                      code := none, start := none, end_ := none }] }

/-- Sample file with a single Hint diagnostic. -/
def sampleHintFile : FileData :=
  { file := "/proj/h.py"
    diagnostics := [{ severity := some 3, message := some "hint", source := none,
                      code := none, start := none, end_ := none }] }

/-- Sample file whose two entries have, respectively, a missing severity
field and the unrecognized severity code 9. -/
def sampleNoSevFile : FileData :=
  { file := "/proj/c.py"
    diagnostics := [{ severity := none, message := some "m1", source := none,
                      code := none, start := none, end_ := none },
                    { severity := some 9, message := some "m2", source := none,
                      code := none, start := none, end_ := none }] }

/-- The report rendered for the one-Error sample snapshot. -/
def sampleReport : String :=
  (generate_reason_markdown (fun p => p) [sampleErrorFile]).getD ""

/-- Claim C1: the renderer returns a report iff the aggregated Error count
or the aggregated Warning count is positive; in particular a snapshot whose
entries are all Information or Hint (and the empty snapshot, vacuously)
renders nothing. -/
theorem c1_render_iff_actionable (relativize : String → String) (data : List FileData) :
    ((generate_reason_markdown relativize data).isSome ↔
      (0 < counterGet (analyze_statistics data).by_severity "Error" ∨
       0 < counterGet (analyze_statistics data).by_severity "Warning")) ∧
    ((∀ fd ∈ data, ∀ d ∈ fd.diagnostics, d.severity = some 2 ∨ d.severity = some 3) →
      generate_reason_markdown relativize data = none) := by
  constructor
  · constructor
    · intro hs
      by_contra hcon
      push_neg at hcon
      have hnone : generate_reason_markdown relativize data = none :=
        (generate_none_iff relativize data).mpr (Or.inr ⟨by omega, by omega⟩)
      rw [hnone] at hs
      exact absurd hs (by simp)
    · intro hpos
      cases hgen : generate_reason_markdown relativize data with
      | some md => simp
      | none =>
        rcases (generate_none_iff relativize data).mp hgen with hnil | ⟨h1, h2⟩
        · subst hnil
          exact absurd hpos (by decide)
        · omega
  · intro h
    rw [generate_none_iff]
    exact Or.inr (error_warning_counts_zero_of_info_hint data h)

/-- Witness for C1: the concrete Information-only snapshot (Scenario B)
renders no report. -/
theorem c1_witness :
    generate_reason_markdown (fun p => p) [sampleInfoFile] = none :=
  (c1_render_iff_actionable (fun p => p) [sampleInfoFile]).2 (by decide)

/-- Claim C2: whenever a report is rendered, its summary header states the
aggregator's Error and Warning counts, with the fixed icons ❌ and ⚠️. -/
theorem c2_header_counts (relativize : String → String) (data : List FileData)
    (md : String) (h : generate_reason_markdown relativize data = some md) :
    ∃ rest, md =
      "### 诊断摘要" ++ "\n\n" ++ "- ❌ Error: " ++
        toString (counterGet (analyze_statistics data).by_severity "Error") ++
      "\n" ++ "- ⚠️ Warning: " ++
        toString (counterGet (analyze_statistics data).by_severity "Warning") ++
      "\n" ++ rest :=
  render_header_prefix relativize data md h

/-- Witness for C2 at the concrete one-Error snapshot (Scenario A). -/
theorem c2_witness :
    ∃ rest, sampleReport =
      "### 诊断摘要" ++ "\n\n" ++ "- ❌ Error: " ++
        toString (counterGet (analyze_statistics [sampleErrorFile]).by_severity "Error") ++
      "\n" ++ "- ⚠️ Warning: " ++
        toString (counterGet (analyze_statistics [sampleErrorFile]).by_severity "Warning") ++
      "\n" ++ rest :=
  c2_header_counts (fun p => p) [sampleErrorFile] sampleReport rfl

/-- Replace a missing severity field by the explicit code 0 (the default the
aggregator applies). -/
def withDefaultSeverity (d : Diagnostic) : Diagnostic :=
  { d with severity := some (d.severity.getD 0) }

/-- Apply `withDefaultSeverity` to every entry of a file. -/
def withDefaultSeverities (fd : FileData) : FileData :=
  { fd with diagnostics := fd.diagnostics.map withDefaultSeverity }

theorem severityName_withDefault (s : Option Int) :
    severityName (some (s.getD 0)) = severityName s := by
  cases s <;> rfl

theorem severityLabels_withDefault (data : List FileData) :
    severityLabels (data.map withDefaultSeverities) = severityLabels data := by
  induction data with
  | nil => rfl
  | cons fd rest ih =>
    simp only [severityLabels, List.map_cons, List.flatMap_cons] at ih ⊢
    rw [ih]
    congr 1
    show (fd.diagnostics.map withDefaultSeverity).map (fun d => severityName d.severity) = _
    rw [List.map_map]
    apply List.map_congr_left
    intro d _
    simpa [Function.comp, withDefaultSeverity] using severityName_withDefault d.severity

/-- Claim C4: an entry with a missing severity field is aggregated exactly
like an entry with explicit severity 0; both land in the Error bucket. -/
theorem c4_missing_severity_counts_as_error (data : List FileData) :
    severityName none = "Error" ∧ severityName (some 0) = "Error" ∧
    analyze_statistics (data.map withDefaultSeverities) = analyze_statistics data := by
  refine ⟨by decide, by decide, ?_⟩
  rw [analyze_statistics_eq, analyze_statistics_eq, severityLabels_withDefault]
  simp only [List.length_map, List.map_map, Statistics.mk.injEq]
  refine ⟨trivial, ?_, trivial⟩
  congr 1
  apply List.map_congr_left
  intro fd _
  simp [Function.comp, withDefaultSeverities]

/-- Claim C5: totalFiles counts every file entry (zero-diagnostic entries
included), totalDiagnostics is the sum of per-file entry counts, and all
three Statistics fields are invariant under permutations of the snapshot
(the `by_severity` dict compared as a mapping: same lookups and same key
set, which is Python dict equality). -/
theorem c5_totals_and_permutation (data data' : List FileData)
    (h : List.Perm data data') :
    (analyze_statistics data).total_files = data.length ∧
    (analyze_statistics data).total_diagnostics =
      (data.map (fun fd => fd.diagnostics.length)).sum ∧
    (analyze_statistics data').total_files = (analyze_statistics data).total_files ∧
    (analyze_statistics data').total_diagnostics =
      (analyze_statistics data).total_diagnostics ∧
    (∀ s, counterGet (analyze_statistics data').by_severity s =
          counterGet (analyze_statistics data).by_severity s) ∧
    (∀ s, s ∈ counterKeys (analyze_statistics data').by_severity ↔
          s ∈ counterKeys (analyze_statistics data).by_severity) := by
  have hperm : List.Perm (severityLabels data) (severityLabels data') :=
    h.flatMap_right _
  refine ⟨by rw [analyze_statistics_eq], by rw [analyze_statistics_eq], ?_, ?_, ?_, ?_⟩
  · rw [analyze_statistics_eq, analyze_statistics_eq]
    exact h.length_eq.symm
  · rw [analyze_statistics_eq, analyze_statistics_eq]
    exact ((h.map _).sum_eq).symm
  · intro s
    rw [by_severity_get, by_severity_get]
    exact (hperm.count_eq s).symm
  · intro s
    rw [by_severity_mem_keys, by_severity_mem_keys]
    exact hperm.mem_iff.symm

/-- Witness for C5 at a concrete two-file snapshot and its swap. -/
theorem c5_witness :
    (analyze_statistics [sampleErrorFile, sampleInfoFile]).total_files = 2 ∧
    (analyze_statistics [sampleInfoFile, sampleErrorFile]).total_diagnostics =
      (analyze_statistics [sampleErrorFile, sampleInfoFile]).total_diagnostics := by
  have h := c5_totals_and_permutation [sampleErrorFile, sampleInfoFile]
    [sampleInfoFile, sampleErrorFile] (List.Perm.swap sampleInfoFile sampleErrorFile [])
  exact ⟨h.1, h.2.2.2.1⟩

/-- Counterexample to C6 as stated: for the snapshot holding one Hint
entry, the `by_severity` dict has the single key `"Hint"`; in particular
`"Error"` is not a key with value 0 — it is absent. -/
theorem c6_counterexample :
    "Error" ∉ counterKeys (analyze_statistics [sampleHintFile]).by_severity ∧
    counterKeys (analyze_statistics [sampleHintFile]).by_severity = ["Hint"] := by
  decide

/-- Claim C6 (amended): the `by_severity` dict contains a severity as a key
exactly when that severity has a positive count; severities with no entries
are absent (and read back as 0 only through the `.get(..., 0)` default). -/
theorem c6_amended_keys_iff_positive (data : List FileData) (s : String) :
    s ∈ counterKeys (analyze_statistics data).by_severity ↔
      0 < counterGet (analyze_statistics data).by_severity s := by
  rw [by_severity_mem_keys, by_severity_get]
  exact List.count_pos_iff.symm

/-- Claim C7: on a prompt-submission event with a rendered report, the
output is the inject-additional-context payload whose text is the fixed
banner immediately followed by the report (which itself starts with the
summary header), and no blocking decision is emitted. -/
theorem c7_prompt_submission_injects (relativize : String → String)
    (data : List FileData) (md : String)
    (h : generate_reason_markdown relativize data = some md) :
    dispatch relativize "UserPromptSubmit" data =
      HookOutput.inject "UserPromptSubmit" (emphasis ++ md) ∧
    (∃ rest, md = "### 诊断摘要" ++ rest) ∧
    (∀ reason, dispatch relativize "UserPromptSubmit" data ≠ HookOutput.block reason) := by
  have hdisp : dispatch relativize "UserPromptSubmit" data =
      HookOutput.inject "UserPromptSubmit" (emphasis ++ md) := by
    unfold dispatch
    rw [if_neg (by decide), if_pos rfl, h]
  refine ⟨hdisp, ?_, ?_⟩
  · obtain ⟨rest, hmd⟩ := render_header_prefix relativize data md h
    refine ⟨"\n\n" ++ ("- ❌ Error: " ++
      (toString (counterGet (analyze_statistics data).by_severity "Error") ++
        ("\n" ++ ("- ⚠️ Warning: " ++
          (toString (counterGet (analyze_statistics data).by_severity "Warning") ++
            ("\n" ++ rest)))))), ?_⟩
    rw [hmd]
    simp only [String.append_assoc]
  · intro reason
    rw [hdisp]
    simp

/-- Witness for C7 at the concrete one-Error snapshot. -/
theorem c7_witness :
    dispatch (fun p => p) "UserPromptSubmit" [sampleErrorFile] =
      HookOutput.inject "UserPromptSubmit" (emphasis ++ sampleReport) ∧
    (∃ rest, sampleReport = "### 诊断摘要" ++ rest) := by
  have h := c7_prompt_submission_injects (fun p => p) [sampleErrorFile] sampleReport rfl
  exact ⟨h.1, h.2.1⟩

theorem severityName_unrecognized (k : Int)
    (h0 : k ≠ 0) (h1 : k ≠ 1) (h2 : k ≠ 2) (h3 : k ≠ 3) :
    severityName (some k) = "Unknown" := by
  simp [severityName, SEVERITY_MAP, h0, h1, h2, h3]

theorem count_error_eq_missing_count (l : List Diagnostic)
    (h : ∀ d ∈ l, d.severity ≠ some 0 ∧ d.severity ≠ some 1 ∧
      d.severity ≠ some 2 ∧ d.severity ≠ some 3) :
    (l.map (fun d => severityName d.severity)).count "Error" =
      (l.filter (fun d => d.severity = none)).length := by
  induction l with
  | nil => simp
  | cons d rest ih =>
    have hd := h d (List.mem_cons_self d rest)
    have hrest : ∀ x ∈ rest, x.severity ≠ some 0 ∧ x.severity ≠ some 1 ∧
        x.severity ≠ some 2 ∧ x.severity ≠ some 3 :=
      fun x hx => h x (List.mem_cons_of_mem _ hx)
    rw [List.map_cons, List.count_cons, ih hrest, List.filter_cons]
    cases hsev : d.severity with
    | none =>
      have hname : severityName none = "Error" := by decide
      simp [hsev, hname]
    | some k =>
      rw [hsev] at hd
      simp only [ne_eq, Option.some.injEq] at hd
      obtain ⟨h0, h1, h2, h3⟩ := hd
      have hname := severityName_unrecognized k h0 h1 h2 h3
      simp [hsev, hname]

/-- Claim C10: the per-file summary counts only explicitly recognized
severity codes 0–3; entries with a missing or unrecognized severity
contribute to no per-file count (so a file with only such entries renders
an empty per-file summary `()`), even though missing-severity entries are
counted as Error in the global statistics. -/
theorem c10_per_file_summary (relativize : String → String) (fd : FileData)
    (h1 : fd.diagnostics ≠ [])
    (h2 : ∀ d ∈ fd.diagnostics, d.severity ≠ some 0 ∧ d.severity ≠ some 1 ∧
      d.severity ≠ some 2 ∧ d.severity ≠ some 3) :
    file_errors fd.diagnostics = 0 ∧ file_warnings fd.diagnostics = 0 ∧
    file_infos fd.diagnostics = 0 ∧ file_hints fd.diagnostics = 0 ∧
    summary_text fd.diagnostics = "" ∧
    fileDetailLines relativize fd =
      ("### 📄 " ++ pathName fd.file ++ " ()") :: "" ::
        fd.diagnostics.flatMap (diagnosticLines relativize fd.file) ∧
    counterGet (analyze_statistics [fd]).by_severity "Error" =
      (fd.diagnostics.filter (fun d => d.severity = none)).length := by
  have he : file_errors fd.diagnostics = 0 := by
    rw [file_errors, List.length_eq_zero, List.filter_eq_nil_iff]
    intro d hd
    simp [(h2 d hd).1]
  have hw : file_warnings fd.diagnostics = 0 := by
    rw [file_warnings, List.length_eq_zero, List.filter_eq_nil_iff]
    intro d hd
    simp [(h2 d hd).2.1]
  have hi : file_infos fd.diagnostics = 0 := by
    rw [file_infos, List.length_eq_zero, List.filter_eq_nil_iff]
    intro d hd
    simp [(h2 d hd).2.2.1]
  have hh : file_hints fd.diagnostics = 0 := by
    rw [file_hints, List.length_eq_zero, List.filter_eq_nil_iff]
    intro d hd
    simp [(h2 d hd).2.2.2]
  have hsum : summary_text fd.diagnostics = "" := by
    rw [summary_text, he, hw, hi, hh]
    simp [pyJoin]
  refine ⟨he, hw, hi, hh, hsum, ?_, ?_⟩
  · rw [fileDetailLines, if_neg (by simpa [List.isEmpty_iff] using h1), hsum]
    simp only [String.append_empty, String.append_assoc]
    rfl
  · rw [by_severity_get]
    have hlab : severityLabels [fd] =
        fd.diagnostics.map (fun d => severityName d.severity) := by
      simp [severityLabels]
    rw [hlab, count_error_eq_missing_count fd.diagnostics h2]

/-- Witness for C10 at a file whose two entries have a missing severity and
the unrecognized code 9: empty per-file summary, yet one global Error. -/
theorem c10_witness :
    summary_text sampleNoSevFile.diagnostics = "" ∧
    counterGet (analyze_statistics [sampleNoSevFile]).by_severity "Error" = 1 := by
  have h := c10_per_file_summary (fun p => p) sampleNoSevFile (by decide) (by decide)
  refine ⟨h.2.2.2.2.1, ?_⟩
  rw [h.2.2.2.2.2.2]
  decide

-- ## The retrying reader (`load_diagnostics`)

/-- A JSON value, as returned by `json.loads`.  Objects are association
lists with distinct keys (Python dict semantics, first match wins). -/
inductive JValue where
  | null
  | bool (b : Bool)
  | num (n : Int)
  | str (s : String)
  | arr (elems : List JValue)
  | obj (fields : List (String × JValue))
  deriving Repr

/-- The Python exception classes the checker code can raise and not catch
locally: TypeError / AttributeError / KeyError from dynamically-typed
access to wrong-shaped JSON, and UnicodeDecodeError (a ValueError) from
reading a file that is not valid UTF-8 — the latter is absent from the
`(json.JSONDecodeError, OSError, PermissionError)` tuple in
`load_diagnostics`, so it escapes the retry loop.  All of them reach
`main`'s top-level `except Exception` handler. -/
inductive PyExc where
  | typeError
  | attributeError
  | keyError
  | unicodeDecodeError
  deriving Repr, DecidableEq

/-- The outcome of one attempt of the retry loop, abstracting one round of
filesystem interaction: the file is absent (`exists()` is false), it has
size zero, its stripped content is empty, reading raises a caught
`OSError`/`PermissionError`, parsing raises a caught
`json.JSONDecodeError`, decoding raises an *uncaught* UnicodeDecodeError
(content that is not valid UTF-8, e.g. a file truncated in the middle of a
multi-byte character), or `json.loads` succeeds with some JSON value. -/
inductive Attempt where
  | absent
  | sizeZero
  | blankContent
  | readError
  | parseError
  | decodeError
  | ok (data : JValue)
  deriving Repr

/-- Does this attempt outcome deliver parsed data? -/
def Attempt.isOk : Attempt → Bool
  | .ok _ => true
  | _ => false

/-- The observable result of a normal return from `load_diagnostics`: the
returned value, the number of loop iterations entered, and the number of
`time.sleep(1)` calls performed. -/
structure LoadOutcome where
  data : JValue
  attempts : Nat
  sleeps : Nat
  deriving Repr

/-- The body of `for attempt in range(5)` in `load_diagnostics`, starting
at attempt index `i` with `fuel` iterations left and `sleeps` sleeps so
far.  The absent/size-zero/blank branches sleep unconditionally before
`continue`; the caught-exception branch (OSError/JSONDecodeError) sleeps
only when `attempt < 4` (on the final attempt it just logs to stderr); an
uncaught UnicodeDecodeError aborts the loop by propagating; a successful
parse returns immediately; an exhausted loop falls through to
`return []`. -/
def load_from (env : Nat → Attempt) : Nat → Nat → Nat → Except PyExc LoadOutcome
  | i, 0, sleeps => .ok ⟨.arr [], i, sleeps⟩
  | i, fuel + 1, sleeps =>
    match env i with
    | .ok d => .ok ⟨d, i + 1, sleeps⟩
    | .absent => load_from env (i + 1) fuel (sleeps + 1)
    | .sizeZero => load_from env (i + 1) fuel (sleeps + 1)
    | .blankContent => load_from env (i + 1) fuel (sleeps + 1)
    | .decodeError => .error .unicodeDecodeError
    | .readError =>
      if i < 4 then load_from env (i + 1) fuel (sleeps + 1)
      else load_from env (i + 1) fuel sleeps
    | .parseError =>
      if i < 4 then load_from env (i + 1) fuel (sleeps + 1)
      else load_from env (i + 1) fuel sleeps

/-- `DiagnosticsChecker.load_diagnostics`: returns `[]` at once when no
diagnostics file was located, otherwise runs the 5-attempt retry loop.
The caught exception classes are exactly `json.JSONDecodeError`, `OSError`
and `PermissionError`; a UnicodeDecodeError raised by `f.read()` on
undecodable content is a ValueError, is not among them, and escapes to the
caller — hence the `Except` result. -/
def load_diagnostics (hasFile : Bool) (env : Nat → Attempt) :
    Except PyExc LoadOutcome :=
  if hasFile then load_from env 0 5 0 else .ok ⟨.arr [], 0, 0⟩

theorem load_from_attempts_le (env : Nat → Attempt) (fuel : Nat) :
    ∀ i sleeps out, load_from env i fuel sleeps = .ok out →
      out.attempts ≤ i + fuel := by
  induction fuel with
  | zero =>
    intro i sleeps out
    simp only [load_from]
    intro h
    injection h with h
    rw [← h]
    exact (by omega : i ≤ i + 0)
  | succ n ih =>
    intro i sleeps out
    simp only [load_from]
    have hle : i + 1 + n ≤ i + (n + 1) := by omega
    cases env i with
    | ok d =>
      intro h
      injection h with h
      rw [← h]
      exact (by omega : i + 1 ≤ i + (n + 1))
    | absent => intro h; exact le_trans (ih _ _ _ h) hle
    | sizeZero => intro h; exact le_trans (ih _ _ _ h) hle
    | blankContent => intro h; exact le_trans (ih _ _ _ h) hle
    | decodeError => intro h; exact absurd h (by simp)
    | readError =>
      by_cases hlt : i < 4
      · rw [if_pos hlt]; intro h; exact le_trans (ih _ _ _ h) hle
      · rw [if_neg hlt]; intro h; exact le_trans (ih _ _ _ h) hle
    | parseError =>
      by_cases hlt : i < 4
      · rw [if_pos hlt]; intro h; exact le_trans (ih _ _ _ h) hle
      · rw [if_neg hlt]; intro h; exact le_trans (ih _ _ _ h) hle

theorem load_from_success (env : Nat → Attempt) (d : JValue) :
    ∀ fuel k i sleeps, k < fuel →
      (∀ j, j < k →
        (env (i + j)).isOk = false ∧ env (i + j) ≠ Attempt.decodeError) →
      env (i + k) = .ok d →
      ∃ s, load_from env i fuel sleeps = .ok ⟨d, i + k + 1, s⟩ := by
  intro fuel
  induction fuel with
  | zero => intro k i sleeps hk; omega
  | succ n ih =>
    intro k i sleeps hk hprev hok
    cases k with
    | zero =>
      rw [Nat.add_zero] at hok
      exact ⟨sleeps, by simp [load_from, hok]⟩
    | succ m =>
      have hfirst := hprev 0 (by omega)
      rw [Nat.add_zero] at hfirst
      have hprev' : ∀ j, j < m →
          (env (i + 1 + j)).isOk = false ∧ env (i + 1 + j) ≠ Attempt.decodeError := by
        intro j hj
        have := hprev (j + 1) (by omega)
        rwa [show i + (j + 1) = i + 1 + j by omega] at this
      have hok' : env (i + 1 + m) = .ok d := by
        rwa [show i + (m + 1) = i + 1 + m by omega] at hok
      have step : ∀ s, ∃ s',
          load_from env (i + 1) n s = .ok ⟨d, i + 1 + m + 1, s'⟩ :=
        fun s => ih m (i + 1) s (by omega) hprev' hok'
      rw [show i + (m + 1) + 1 = i + 1 + m + 1 by omega]
      cases henv : env i with
      | ok d' => rw [henv] at hfirst; simp [Attempt.isOk] at hfirst
      | decodeError => exact absurd henv hfirst.2
      | absent =>
        obtain ⟨s', hs⟩ := step (sleeps + 1)
        exact ⟨s', by simp only [load_from, henv]; exact hs⟩
      | sizeZero =>
        obtain ⟨s', hs⟩ := step (sleeps + 1)
        exact ⟨s', by simp only [load_from, henv]; exact hs⟩
      | blankContent =>
        obtain ⟨s', hs⟩ := step (sleeps + 1)
        exact ⟨s', by simp only [load_from, henv]; exact hs⟩
      | readError =>
        by_cases hlt : i < 4
        · obtain ⟨s', hs⟩ := step (sleeps + 1)
          exact ⟨s', by simp only [load_from, henv]; rw [if_pos hlt]; exact hs⟩
        · obtain ⟨s', hs⟩ := step sleeps
          exact ⟨s', by simp only [load_from, henv]; rw [if_neg hlt]; exact hs⟩
      | parseError =>
        by_cases hlt : i < 4
        · obtain ⟨s', hs⟩ := step (sleeps + 1)
          exact ⟨s', by simp only [load_from, henv]; rw [if_pos hlt]; exact hs⟩
        · obtain ⟨s', hs⟩ := step sleeps
          exact ⟨s', by simp only [load_from, henv]; rw [if_neg hlt]; exact hs⟩

theorem load_from_all_sleepers (env : Nat → Attempt) :
    ∀ fuel i sleeps,
      (∀ j, i ≤ j → j < i + fuel →
        env j = .absent ∨ env j = .sizeZero ∨ env j = .blankContent) →
      load_from env i fuel sleeps = .ok ⟨.arr [], i + fuel, sleeps + fuel⟩ := by
  intro fuel
  induction fuel with
  | zero => intro i sleeps _; simp [load_from]
  | succ n ih =>
    intro i sleeps h
    have hstep := ih (i + 1) (sleeps + 1)
      (fun j hj1 hj2 => h j (by omega) (by omega))
    rcases h i (by omega) (by omega) with hi | hi | hi <;>
      · simp only [load_from, hi, hstep]
        exact congrArg Except.ok (congrArg₂ (LoadOutcome.mk _) (by omega) (by omega))

theorem load_from_no_decode_ok (env : Nat → Attempt)
    (h : ∀ i, env i ≠ Attempt.decodeError) :
    ∀ fuel i sleeps, ∃ out, load_from env i fuel sleeps = .ok out := by
  intro fuel
  induction fuel with
  | zero => intro i sleeps; exact ⟨⟨.arr [], i, sleeps⟩, rfl⟩
  | succ n ih =>
    intro i sleeps
    cases henv : env i with
    | ok d => exact ⟨⟨d, i + 1, sleeps⟩, by simp [load_from, henv]⟩
    | decodeError => exact absurd henv (h i)
    | absent =>
      obtain ⟨out, hout⟩ := ih (i + 1) (sleeps + 1)
      exact ⟨out, by simp only [load_from, henv]; exact hout⟩
    | sizeZero =>
      obtain ⟨out, hout⟩ := ih (i + 1) (sleeps + 1)
      exact ⟨out, by simp only [load_from, henv]; exact hout⟩
    | blankContent =>
      obtain ⟨out, hout⟩ := ih (i + 1) (sleeps + 1)
      exact ⟨out, by simp only [load_from, henv]; exact hout⟩
    | readError =>
      by_cases hlt : i < 4
      · obtain ⟨out, hout⟩ := ih (i + 1) (sleeps + 1)
        exact ⟨out, by simp only [load_from, henv]; rw [if_pos hlt]; exact hout⟩
      · obtain ⟨out, hout⟩ := ih (i + 1) sleeps
        exact ⟨out, by simp only [load_from, henv]; rw [if_neg hlt]; exact hout⟩
    | parseError =>
      by_cases hlt : i < 4
      · obtain ⟨out, hout⟩ := ih (i + 1) (sleeps + 1)
        exact ⟨out, by simp only [load_from, henv]; rw [if_pos hlt]; exact hout⟩
      · obtain ⟨out, hout⟩ := ih (i + 1) sleeps
        exact ⟨out, by simp only [load_from, henv]; rw [if_neg hlt]; exact hout⟩

theorem load_all_errors (env : Nat → Attempt)
    (h : ∀ i, i < 5 → env i = .parseError ∨ env i = .readError) :
    load_diagnostics true env = .ok ⟨.arr [], 5, 4⟩ := by
  have h0 := h 0 (by omega)
  have h1 := h 1 (by omega)
  have h2 := h 2 (by omega)
  have h3 := h 3 (by omega)
  have h4 := h 4 (by omega)
  rcases h0 with h0 | h0 <;> rcases h1 with h1 | h1 <;> rcases h2 with h2 | h2 <;>
    rcases h3 with h3 | h3 <;> rcases h4 with h4 | h4 <;>
    simp [load_diagnostics, load_from, h0, h1, h2, h3, h4]

/-- Counterexample to C3 as stated: the Reader can raise.  When an attempt
finds content that is not valid UTF-8, `f.read()` raises
UnicodeDecodeError, which the `except (json.JSONDecodeError, OSError,
PermissionError)` clause does not catch — the exception escapes
`load_diagnostics` instead of a snapshot being returned. -/
theorem c3_counterexample :
    load_diagnostics true (fun _ => Attempt.decodeError) =
      Except.error PyExc.unicodeDecodeError := by
  rfl

/-- Claim C3 (amended): every normal return of the Reader took at most 5
attempts; a successful parse at the first delivering attempt returns that
data immediately with no further attempts; a file absent on every attempt
gives exactly 5 attempts and the empty snapshot; and the Reader never
raises *except* for UnicodeDecodeError on undecodable content — for every
environment free of that outcome it returns normally. -/
theorem c3_amended_retry_contract (env : Nat → Attempt) :
    (∀ hasFile out, load_diagnostics hasFile env = Except.ok out →
      out.attempts ≤ 5) ∧
    (∀ i d, i < 5 →
      (∀ j, j < i → (env j).isOk = false ∧ env j ≠ Attempt.decodeError) →
      env i = Attempt.ok d →
      ∃ sleeps, load_diagnostics true env = Except.ok ⟨d, i + 1, sleeps⟩) ∧
    ((∀ i, env i = Attempt.absent) →
      load_diagnostics true env = Except.ok ⟨JValue.arr [], 5, 5⟩) ∧
    ((∀ i, env i ≠ Attempt.decodeError) →
      ∃ out, load_diagnostics true env = Except.ok out) := by
  refine ⟨?_, ?_, ?_, ?_⟩
  · intro hasFile out h
    cases hasFile
    · injection h with h
      rw [← h]
      exact (by omega : 0 ≤ 5)
    · have := load_from_attempts_le env 5 0 0 out h
      simpa using this
  · intro i d hi hprev hok
    obtain ⟨s, hs⟩ := load_from_success env d 5 i 0 0 hi
      (by simpa using hprev) (by simpa using hok)
    refine ⟨s, ?_⟩
    show load_from env 0 5 0 = _
    rw [hs]
    exact congrArg Except.ok (congrArg₂ (LoadOutcome.mk _) (by omega) rfl)
  · intro h
    have heq := load_from_all_sleepers env 5 0 0 (fun j _ _ => Or.inl (h j))
    show load_from env 0 5 0 = _
    rw [heq]
  · intro h
    exact load_from_no_decode_ok env h 5 0 0

/-- Witness for C3 (amended): the always-absent environment makes exactly
5 attempts and returns the empty snapshot. -/
theorem c3_witness :
    load_diagnostics true (fun _ => Attempt.absent) =
      Except.ok ⟨JValue.arr [], 5, 5⟩ :=
  (c3_amended_retry_contract (fun _ => Attempt.absent)).2.2.1 (fun _ => rfl)

/-- Counterexample to C9 as stated: a run in which all 5 attempts fail
because the file never exists sleeps after every attempt, the final one
included — 5 time units of waiting, not 4. -/
theorem c9_counterexample :
    load_diagnostics true (fun _ => Attempt.absent) =
      Except.ok ⟨JValue.arr [], 5, 5⟩ ∧
    ∀ out, load_diagnostics true (fun _ => Attempt.absent) = Except.ok out →
      ¬out.sleeps = 4 := by
  have heq : load_diagnostics true (fun _ => Attempt.absent) =
      Except.ok ⟨JValue.arr [], 5, 5⟩ := by
    have h := load_from_all_sleepers (fun _ => Attempt.absent) 5 0 0
      (fun j _ _ => Or.inl rfl)
    show load_from (fun _ => Attempt.absent) 0 5 0 = _
    rw [h]
  refine ⟨heq, ?_⟩
  intro out hout
  rw [heq] at hout
  injection hout with hout
  rw [← hout]
  decide

/-- Claim C9 (amended): when every attempt fails with a caught parse or
read error, the reader sleeps only between consecutive attempts — 4 time
units in total; but the absent / zero-size / blank-content branches sleep
unconditionally, so a run in which every attempt finds the file absent (or
empty) waits 5 time units, sleeping even after the final attempt. -/
theorem c9_amended_sleep_totals (env : Nat → Attempt) :
    ((∀ i, i < 5 → env i = Attempt.parseError ∨ env i = Attempt.readError) →
      load_diagnostics true env = Except.ok ⟨JValue.arr [], 5, 4⟩) ∧
    ((∀ i, i < 5 →
        env i = Attempt.absent ∨ env i = Attempt.sizeZero ∨
          env i = Attempt.blankContent) →
      load_diagnostics true env = Except.ok ⟨JValue.arr [], 5, 5⟩) := by
  constructor
  · intro h
    exact load_all_errors env h
  · intro h
    have heq := load_from_all_sleepers env 5 0 0 (fun j _ hj => h j (by omega))
    show load_from env 0 5 0 = _
    rw [heq]

/-- Witness for C9 (amended): always-failing parse sleeps 4 units;
always-zero-size file sleeps 5. -/
theorem c9_witness :
    load_diagnostics true (fun _ => Attempt.parseError) =
      Except.ok ⟨JValue.arr [], 5, 4⟩ ∧
    load_diagnostics true (fun _ => Attempt.sizeZero) =
      Except.ok ⟨JValue.arr [], 5, 5⟩ :=
  ⟨(c9_amended_sleep_totals (fun _ => Attempt.parseError)).1
      (fun _ _ => Or.inl rfl),
   (c9_amended_sleep_totals (fun _ => Attempt.sizeZero)).2
      (fun _ _ => Or.inr (Or.inl rfl))⟩

-- ## The dynamic (JSON-value) layer and `main`'s exception boundary

/-- Python truthiness of a JSON value. -/
def pyTruthy : JValue → Bool
  | .null => false
  | .bool b => b
  | .num n => n ≠ 0
  | .str s => s ≠ ""
  | .arr xs => !xs.isEmpty
  | .obj fs => !fs.isEmpty

/-- Python iteration: lists yield elements, strings yield 1-character
strings, dicts yield their keys; other values raise TypeError. -/
def pyIter : JValue → Except PyExc (List JValue)
  | .arr xs => .ok xs
  | .str s => .ok (s.toList.map (fun c => .str (String.mk [c])))
  | .obj fs => .ok (fs.map (fun kv => .str kv.1))
  | _ => .error .typeError

/-- `v.get(key, default)`: only dicts have `.get`; anything else raises
AttributeError. -/
def pyGet (v : JValue) (key : String) (default : JValue) : Except PyExc JValue :=
  match v with
  | .obj fs => .ok ((fs.lookup key).getD default)
  | _ => .error .attributeError

/-- `v[key]` with a string key: KeyError when a dict lacks the key,
TypeError on non-dicts. -/
def pyIndex (v : JValue) (key : String) : Except PyExc JValue :=
  match v with
  | .obj fs =>
    match fs.lookup key with
    | some x => .ok x
    | none => .error .keyError
  | _ => .error .typeError

/-- `len(v)` for the sized JSON values; TypeError otherwise. -/
def pyLen : JValue → Except PyExc Nat
  | .str s => .ok s.length
  | .arr xs => .ok xs.length
  | .obj fs => .ok fs.length
  | _ => .error .typeError

mutual

/-- Python `repr()` of a JSON value. -/
def pyRepr : JValue → String
  | .null => "None"
  | .bool true => "True"
  | .bool false => "False"
  | .num n => toString n
  | .str s => "\x27" ++ s ++ "\x27"
  | .arr xs => "[" ++ pyReprList xs ++ "]"
  | .obj fs => "\x7b" ++ pyReprFields fs ++ "\x7d"

/-- `", ".join(repr(x) for x in xs)`. -/
def pyReprList : List JValue → String
  | [] => ""
  | [x] => pyRepr x
  | x :: y :: xs => pyRepr x ++ ", " ++ pyReprList (y :: xs)

/-- The field list of a dict repr. -/
def pyReprFields : List (String × JValue) → String
  | [] => ""
  | [(k, v)] => "\x27" ++ k ++ "\x27: " ++ pyRepr v
  | (k, v) :: f :: fs => "\x27" ++ k ++ "\x27: " ++ pyRepr v ++ ", " ++ pyReprFields (f :: fs)

end

/-- Python `str()` as used by f-string interpolation. -/
def pyStr (v : JValue) : String :=
  match v with
  | .str s => s
  | _ => pyRepr v

/-- `SEVERITY_MAP.get(sev, "Unknown")` under Python dict-key semantics:
bool keys compare equal to the int keys (`False == 0`, `True == 1`);
`None` and strings are hashable and simply miss, yielding the default
`"Unknown"`; lists and dicts are unhashable, so the `.get` call itself
raises `TypeError: unhashable type`. -/
def pySevName (sev : JValue) : Except PyExc String :=
  match sev with
  | .num n => .ok (severityName (some n))
  | .bool b => .ok (if b then "Warning" else "Error")
  | .null => .ok "Unknown"
  | .str _ => .ok "Unknown"
  | .arr _ => .error .typeError
  | .obj _ => .error .typeError

/-- Python `x == k` for an int literal `k` (`True == 1`, `False == 0`;
values of other types — including lists and dicts, for which `==` needs no
hashing — compare unequal). -/
def pyEqInt (v : JValue) (k : Int) : Bool :=
  match v with
  | .num n => n = k
  | .bool b => (if b then (1 : Int) else 0) = k
  | _ => false

/-- `analyze_statistics` applied to an arbitrary parsed JSON value, with
Python's dynamic-typing failures explicit: iterating a non-iterable raises
TypeError, `.get` on a non-dict element raises AttributeError, and an
unhashable severity value raises TypeError inside `SEVERITY_MAP.get`. -/
def analyze_statistics_dyn (data : JValue) : Except PyExc Statistics := do
  let files ← pyIter data
  files.foldlM
    (fun acc file_data => do
      let diagnostics ← pyGet file_data "diagnostics" (.arr [])
      let n ← pyLen diagnostics
      let diags ← pyIter diagnostics
      let c ← diags.foldlM
        (fun c diag => do
          let sev ← pyGet diag "severity" (.num 0)
          let name ← pySevName sev
          pure (counterAdd c name))
        acc.by_severity
      pure (⟨acc.total_files + 1, acc.total_diagnostics + n, c⟩ : Statistics))
    (⟨0, 0, []⟩ : Statistics)

/-- Detail lines for one diagnostic at the dynamic level; values of
arbitrary JSON type are rendered through Python `str()`. -/
def dynDiagnosticLines (relativize : String → String) (file_path : String)
    (lines : List String) (diagnostic : JValue) : Except PyExc (List String) := do
  let sev ← pyGet diagnostic "severity" (.num 0)
  let severity_name ← pySevName sev
  let icon := (SEVERITY_ICONS severity_name).getD "📋"
  let start ← pyGet diagnostic "start" (.obj [])
  let stop ← pyGet diagnostic "end" (.obj [])
  let line ← pyGet start "line" (.num 0)
  let start_char ← pyGet start "character" (.num 0)
  let end_char ← pyGet stop "character" (.num 0)
  let msg ← pyGet diagnostic "message" (.str "无")
  let l1 := "**第" ++ pyStr line ++ "行:" ++ pyStr start_char ++ "-" ++ pyStr end_char ++
    "** - " ++ icon ++ " " ++ severity_name
  let l2 := "- **消息**: " ++ pyStr msg
  let src ← pyGet diagnostic "source" .null
  let srcLines ←
    if pyTruthy src then do
      let s ← pyIndex diagnostic "source"
      pure ["- **来源**: " ++ pyStr s]
    else pure []
  let codev ← pyGet diagnostic "code" .null
  let codeLines ←
    if pyTruthy codev then do
      let c ← pyIndex diagnostic "code"
      pure ["- **错误代码**: " ++ pyStr c]
    else pure []
  pure (lines ++ [l1, l2] ++ srcLines ++ codeLines ++
    ["- **文件路径**: `" ++ relativize file_path ++ "`", ""])

/-- One iteration of the renderer's `for file_data in data` loop at the
dynamic level: the `file` key is read with `[...]` (KeyError when missing)
and handed to `Path(...)` (TypeError when not a string); the four per-file
severity tallies compare each entry's raw severity with `== 0/1/2/3`. -/
def dynFileLines (relativize : String → String) (lines : List String)
    (file_data : JValue) : Except PyExc (List String) := do
  let diagnostics ← pyGet file_data "diagnostics" (.arr [])
  if pyTruthy diagnostics = false then
    return lines
  let file_path ← pyIndex file_data "file"
  let fp ←
    match file_path with
    | .str s => Except.ok s
    | _ => Except.error PyExc.typeError
  let file_name := pathName fp
  let diags ← pyIter diagnostics
  let sevs ← diags.mapM (fun d => pyGet d "severity" .null)
  let file_errors := (sevs.filter (fun v => pyEqInt v 0)).length
  let file_warnings := (sevs.filter (fun v => pyEqInt v 1)).length
  let file_infos := (sevs.filter (fun v => pyEqInt v 2)).length
  let file_hints := (sevs.filter (fun v => pyEqInt v 3)).length
  let summary_text := pyJoin ", "
    ((if file_errors ≠ 0 then [toString file_errors ++ "个error"] else []) ++
     (if file_warnings ≠ 0 then [toString file_warnings ++ "个warning"] else []) ++
     (if file_infos ≠ 0 then [toString file_infos ++ "个information"] else []) ++
     (if file_hints ≠ 0 then [toString file_hints ++ "个hint"] else []))
  let lines := lines ++ ["### 📄 " ++ file_name ++ " (" ++ summary_text ++ ")", ""]
  diags.foldlM (dynDiagnosticLines relativize fp) lines

/-- `generate_reason_markdown` over an arbitrary parsed JSON value (the
settle waits and the file read are modelled by `load_diagnostics`; this
function receives the loaded value). -/
def generate_reason_markdown_dyn (relativize : String → String)
    (data : JValue) : Except PyExc (Option String) := do
  if pyTruthy data = false then
    return none
  let stats ← analyze_statistics_dyn data
  let errors := counterGet stats.by_severity "Error"
  let warnings := counterGet stats.by_severity "Warning"
  if errors = 0 ∧ warnings = 0 then
    return none
  let files ← pyIter data
  let detail_lines ← files.foldlM (dynFileLines relativize) []
  let header :=
    ["### 诊断摘要", "",
     "- ❌ Error: " ++ toString errors,
     "- ⚠️ Warning: " ++ toString warnings,
     ""]
  return some (pyJoin "\n" (header ++ detail_lines))

/-- The terminal state of one full invocation of `main`: a normal
completion carrying the emitted output (exit status 0), or the top-level
`except Exception` handler printing a structured error report and exiting
with status 1. -/
inductive RunResult where
  | success (out : HookOutput)
  | fatal (e : PyExc)
  deriving Repr, DecidableEq

/-- The checker pipeline shared by `check_and_report` and the
`UserPromptSubmit` branch: load the snapshot — an exception escaping the
reader (UnicodeDecodeError) propagates — then render the loaded value. -/
def checker_pipeline (relativize : String → String) (hasFile : Bool)
    (env : Nat → Attempt) : Except PyExc (Option String) := do
  let loaded ← load_diagnostics hasFile env
  generate_reason_markdown_dyn relativize loaded.data

/-- `main` at the dynamic level: dispatch on the resolved event name, run
the load-and-render pipeline for the two diagnostics events, and turn an
uncaught Python exception into the fatal exit-1 path. -/
def run_hook_dyn (relativize : String → String) (hook_event_name : String)
    (hasFile : Bool) (env : Nat → Attempt) : RunResult :=
  if hook_event_name = "PostToolUse" then
    match checker_pipeline relativize hasFile env with
    | .error e => .fatal e
    | .ok none => .success .silent
    | .ok (some reason_md) => .success (.block reason_md)
  else if hook_event_name = "UserPromptSubmit" then
    match checker_pipeline relativize hasFile env with
    | .error e => .fatal e
    | .ok none => .success .silent
    | .ok (some reason_md) => .success (.inject "UserPromptSubmit" (emphasis ++ reason_md))
  else .success (.echoLine (hook_event_name ++ "：钩子触发"))

theorem load_from_data_empty (env : Nat → Attempt)
    (h : ∀ i, (env i).isOk = false ∧ env i ≠ Attempt.decodeError) :
    ∀ fuel i sleeps, ∃ a s, load_from env i fuel sleeps = .ok ⟨.arr [], a, s⟩ := by
  intro fuel
  induction fuel with
  | zero => intro i sleeps; exact ⟨i, sleeps, rfl⟩
  | succ n ih =>
    intro i sleeps
    cases henv : env i with
    | ok d =>
      have := (h i).1
      rw [henv] at this
      simp [Attempt.isOk] at this
    | decodeError => exact absurd henv (h i).2
    | absent =>
      obtain ⟨a, s, hs⟩ := ih (i + 1) (sleeps + 1)
      exact ⟨a, s, by simp only [load_from, henv]; exact hs⟩
    | sizeZero =>
      obtain ⟨a, s, hs⟩ := ih (i + 1) (sleeps + 1)
      exact ⟨a, s, by simp only [load_from, henv]; exact hs⟩
    | blankContent =>
      obtain ⟨a, s, hs⟩ := ih (i + 1) (sleeps + 1)
      exact ⟨a, s, by simp only [load_from, henv]; exact hs⟩
    | readError =>
      by_cases hlt : i < 4
      · obtain ⟨a, s, hs⟩ := ih (i + 1) (sleeps + 1)
        exact ⟨a, s, by simp only [load_from, henv]; rw [if_pos hlt]; exact hs⟩
      · obtain ⟨a, s, hs⟩ := ih (i + 1) sleeps
        exact ⟨a, s, by simp only [load_from, henv]; rw [if_neg hlt]; exact hs⟩
    | parseError =>
      by_cases hlt : i < 4
      · obtain ⟨a, s, hs⟩ := ih (i + 1) (sleeps + 1)
        exact ⟨a, s, by simp only [load_from, henv]; rw [if_pos hlt]; exact hs⟩
      · obtain ⟨a, s, hs⟩ := ih (i + 1) sleeps
        exact ⟨a, s, by simp only [load_from, henv]; rw [if_neg hlt]; exact hs⟩

/-- Counterexample to C8 as stated: snapshot-file content `"x"` is valid
JSON but not an array of file objects.  Iterating the string yields a
character and its `.get` call raises AttributeError, which escapes to
`main`'s top-level handler: the run ends on the fatal exit-1 path, not as
"nothing to report". -/
theorem c8_counterexample :
    run_hook_dyn (fun p => p) "PostToolUse" true
        (fun _ => Attempt.ok (JValue.str "x")) =
      RunResult.fatal PyExc.attributeError := by
  rfl

/-- Claim C8 (amended): every run in which no attempt delivers parsed data
*and* no attempt hits undecodable content (missing file, empty file, blank
content, parse failures, caught OS read errors) is treated as "nothing to
report" — the run completes silently on both diagnostics events.  Two
malformation families are the exception, both ending on the fatal exit-1
path: content that parses to JSON of the wrong shape (for example the JSON
string "x", raising AttributeError), and content that is not decodable
UTF-8 at all (raising UnicodeDecodeError past the retry loop). -/
theorem c8_amended_absent_data_is_silent (relativize : String → String)
    (hasFile : Bool) (env : Nat → Attempt)
    (h : ∀ i, (env i).isOk = false ∧ env i ≠ Attempt.decodeError) :
    run_hook_dyn relativize "PostToolUse" hasFile env =
      RunResult.success HookOutput.silent ∧
    run_hook_dyn relativize "UserPromptSubmit" hasFile env =
      RunResult.success HookOutput.silent ∧
    run_hook_dyn relativize "PostToolUse" true
        (fun _ => Attempt.ok (JValue.str "x")) =
      RunResult.fatal PyExc.attributeError ∧
    run_hook_dyn relativize "PostToolUse" true
        (fun _ => Attempt.decodeError) =
      RunResult.fatal PyExc.unicodeDecodeError := by
  have hpipe : checker_pipeline relativize hasFile env = .ok none := by
    cases hasFile
    · rfl
    · obtain ⟨a, s, heq⟩ := load_from_data_empty env h 5 0 0
      have hload : load_diagnostics true env = .ok ⟨.arr [], a, s⟩ := heq
      unfold checker_pipeline
      rw [hload]
      rfl
  refine ⟨?_, ?_, rfl, rfl⟩
  · unfold run_hook_dyn
    rw [if_pos rfl, hpipe]
  · unfold run_hook_dyn
    rw [if_neg (by decide), if_pos rfl, hpipe]

/-- Witness for C8 (amended): concrete missing-file and blank-content
runs complete silently. -/
theorem c8_witness :
    run_hook_dyn (fun p => p) "PostToolUse" false (fun _ => Attempt.absent) =
      RunResult.success HookOutput.silent ∧
    run_hook_dyn (fun p => p) "UserPromptSubmit" true
        (fun _ => Attempt.blankContent) =
      RunResult.success HookOutput.silent := by
  have h1 := c8_amended_absent_data_is_silent (fun p => p) false
    (fun _ => Attempt.absent) (fun _ => ⟨rfl, fun hh => Attempt.noConfusion hh⟩)
  have h2 := c8_amended_absent_data_is_silent (fun p => p) true
    (fun _ => Attempt.blankContent) (fun _ => ⟨rfl, fun hh => Attempt.noConfusion hh⟩)
  exact ⟨h1.1, h2.2.1⟩
